import Mathlib

/-!
Shallow embedding of bimmer_connected/state.py.

The module maps a JSON status document (a Python dict) to typed accessors.
We model JSON values, Python dicts as association lists with unique keys,
and Python exceptions (KeyError, ValueError, TypeError, AttributeError) via
an Except monad.  Numbers are modelled as rationals: the claims under study
never perform float arithmetic, only pass parsed values through, so the
binary64 rounding of Python floats is irrelevant here.
-/

/-- A JSON value as produced by response.json() in Python. -/
inductive Json where
  | str (s : String)
  | num (q : Rat)
  | bool (b : Bool)
  | null
  | obj (fields : List (String × Json))
  | arr (elems : List Json)

/-- The Python exceptions that the code under study can raise or catch.
ValueError carries its message; KeyError and TypeError messages are never
inspected by the code, so they carry none. -/
inductive PyError where
  | keyError
  | valueError (msg : String)
  | typeError
  | attributeError (name : String)
deriving DecidableEq

/-- The vehicleStatus mapping: a Python dict from string keys to JSON values. -/
abbrev Attributes := List (String × Json)

/-- Python dict indexing d[k]: the value, or KeyError when the key is absent. -/
def dictGet (a : Attributes) (k : String) : Except PyError Json :=
  match a.lookup k with
  | some v => Except.ok v
  | none => Except.error PyError.keyError

/-- Python indexing v[k] on a JSON value with a string key: dict lookup on an
object (KeyError when absent); indexing a string, number, list, bool or None
with a string key raises TypeError. -/
def Json.index : Json → String → Except PyError Json
  | Json.obj fields, k =>
    match fields.lookup k with
    | some v => Except.ok v
    | none => Except.error PyError.keyError
  | _, _ => Except.error PyError.typeError

/-- Python membership test (k in d) on a dict value.  In the code under study
this is only reached after a successful string indexing of the same value, so
the receiver is always an object. -/
def Json.containsKey : Json → String → Bool
  | Json.obj fields, k => (fields.lookup k).isSome
  | _, _ => false

/-- Python equality (v == s) between a JSON value and a string literal: string
against string compares contents; any other type compares unequal without
raising. -/
def jsonEqStr (v : Json) (s : String) : Bool :=
  match v with
  | Json.str t => t == s
  | _ => false

/-- Python truthiness of an optional boolean: None is falsy. -/
def truthy : Option Bool → Bool
  | some b => b
  | none => false

/-- Numeric value of a decimal digit character. -/
def digitVal (c : Char) : Nat := c.toNat - 48

/-- Value of a list of decimal digit characters. -/
def digitsToNat (cs : List Char) : Nat :=
  cs.foldl (fun acc c => acc * 10 + digitVal c) 0

/-- Helper for Python float(s) on strings: parse an unsigned decimal with an
optional fractional part, e.g. 34 or 34.25.  Exponents, underscores, inf and
nan accepted by CPython are not modelled; no accessor claim exercises
string-to-float conversion. -/
def parseUnsignedDecimal (cs : List Char) : Option Rat :=
  let intPart := cs.takeWhile Char.isDigit
  let rest := cs.drop intPart.length
  match rest with
  | [] =>
    if intPart.isEmpty then none
    else some (digitsToNat intPart : Rat)
  | '.' :: fracPart =>
    if fracPart.all Char.isDigit ∧ ¬ (intPart.isEmpty ∧ fracPart.isEmpty) then
      some ((digitsToNat intPart : Rat) +
        (digitsToNat fracPart : Rat) / ((10 : Rat) ^ fracPart.length))
    else none
  | _ => none

/-- Python float(s) on a string: optional sign then a decimal literal;
anything else raises ValueError (surrounding whitespace not modelled). -/
def parseFloatStr (s : String) : Option Rat :=
  match s.toList with
  | '-' :: rest => (parseUnsignedDecimal rest).map Neg.neg
  | '+' :: rest => parseUnsignedDecimal rest
  | cs => parseUnsignedDecimal cs

/-- Python float(v) on a JSON value: numbers pass through, strings are parsed
(ValueError on failure), booleans convert to 0 or 1, dicts, lists and None
raise TypeError. -/
def pyFloat : Json → Except PyError Rat
  | Json.num q => Except.ok q
  | Json.str s =>
    match parseFloatStr s with
    | some q => Except.ok q
    | none => Except.error (PyError.valueError ("could not convert string to float: " ++ s))
  | Json.bool b => Except.ok (if b then 1 else 0)
  | _ => Except.error PyError.typeError

/-- Truncation toward zero, the rounding of Python int(float). -/
def pyTrunc (q : Rat) : Int :=
  if 0 ≤ q then ⌊q⌋ else ⌈q⌉

/-- Python int(v) on a JSON value: ints pass through, floats truncate toward
zero, strings are parsed as optionally signed decimal integers (ValueError on
failure), booleans convert to 0 or 1, other types raise TypeError. -/
def pyInt : Json → Except PyError Int
  | Json.num q => Except.ok (pyTrunc q)
  | Json.str s =>
    match s.toList with
    | '-' :: rest =>
      if rest ≠ [] ∧ rest.all Char.isDigit then Except.ok (-(digitsToNat rest : Int))
      else Except.error (PyError.valueError ("invalid literal for int: " ++ s))
    | cs =>
      if cs ≠ [] ∧ cs.all Char.isDigit then Except.ok (digitsToNat cs : Int)
      else Except.error (PyError.valueError ("invalid literal for int: " ++ s))
  | Json.bool b => Except.ok (if b then 1 else 0)
  | _ => Except.error PyError.typeError

/-! ### Enumerations of state.py -/

/-- Possible states of the hatch, trunk, doors, windows, sun roof. -/
inductive LidState where
  | CLOSED
  | OPEN
  | INTERMEDIATE
deriving DecidableEq, BEq

/-- Possible states of the door locks. -/
inductive LockState where
  | LOCKED
  | SECURED
  | SELECTIVELOCKED
  | UNLOCKED
deriving DecidableEq, BEq

/-- Possible states of the parking lights. -/
inductive ParkingLightState where
  | LEFT
  | RIGHT
  | OFF
deriving DecidableEq, BEq

/-- Status of the condition based services. -/
inductive ConditionBasedServiceStatus where
  | OK
  | OVERDUE
  | PENDING
deriving DecidableEq, BEq

/-- Python enum construction LidState(v): returns the member whose value
equals v, otherwise raises ValueError (for non-string v the membership search
also fails and ends in the same ValueError). -/
def LidState.ofJson : Json → Except PyError LidState
  | Json.str s =>
    if s = "CLOSED" then Except.ok LidState.CLOSED
    else if s = "OPEN" then Except.ok LidState.OPEN
    else if s = "INTERMEDIATE" then Except.ok LidState.INTERMEDIATE
    else Except.error (PyError.valueError (s ++ " is not a valid LidState"))
  | _ => Except.error (PyError.valueError "not a valid LidState")

/-- Python enum construction LockState(v); see LidState.ofJson. -/
def LockState.ofJson : Json → Except PyError LockState
  | Json.str s =>
    if s = "LOCKED" then Except.ok LockState.LOCKED
    else if s = "SECURED" then Except.ok LockState.SECURED
    else if s = "SELECTIVELOCKED" then Except.ok LockState.SELECTIVELOCKED
    else if s = "UNLOCKED" then Except.ok LockState.UNLOCKED
    else Except.error (PyError.valueError (s ++ " is not a valid LockState"))
  | _ => Except.error (PyError.valueError "not a valid LockState")

/-- Python enum construction ParkingLightState(v); see LidState.ofJson. -/
def ParkingLightState.ofJson : Json → Except PyError ParkingLightState
  | Json.str s =>
    if s = "LEFT" then Except.ok ParkingLightState.LEFT
    else if s = "RIGHT" then Except.ok ParkingLightState.RIGHT
    else if s = "OFF" then Except.ok ParkingLightState.OFF
    else Except.error (PyError.valueError (s ++ " is not a valid ParkingLightState"))
  | _ => Except.error (PyError.valueError "not a valid ParkingLightState")

/-- Python enum construction ConditionBasedServiceStatus(v); see
LidState.ofJson. -/
def ConditionBasedServiceStatus.ofJson : Json → Except PyError ConditionBasedServiceStatus
  | Json.str s =>
    if s = "OK" then Except.ok ConditionBasedServiceStatus.OK
    else if s = "OVERDUE" then Except.ok ConditionBasedServiceStatus.OVERDUE
    else if s = "PENDING" then Except.ok ConditionBasedServiceStatus.PENDING
    else Except.error (PyError.valueError (s ++ " is not a valid ConditionBasedServiceStatus"))
  | _ => Except.error (PyError.valueError "not a valid ConditionBasedServiceStatus")

/-- LIDS list of state.py. -/
def LIDS : List String :=
  ["doorDriverFront", "doorPassengerFront", "doorDriverRear", "doorPassengerRear",
   "hood", "trunk"]

/-- WINDOWS list of state.py. -/
def WINDOWS : List String :=
  ["windowDriverFront", "windowPassengerFront", "windowDriverRear", "windowPassengerRear"]

/-! ### The guarded-accessor decorator and the state object -/

/-- The ValueError raised by the backend_parameter guard. -/
def noData : PyError := PyError.valueError "No data available!"

/-- Decorator backend_parameter of state.py: raise ValueError when the stored
attributes are None; run the body and convert a KeyError escaping it into a
None result (logged); every other exception propagates. -/
def backend_parameter {α : Type} (attrs : Option Attributes)
    (func : Attributes → Except PyError (Option α)) : Except PyError (Option α) :=
  match attrs with
  | none => Except.error noData
  | some a =>
    match func a with
    | Except.error PyError.keyError => Except.ok none
    | r => r

/-- VehicleState of state.py.  The account and vehicle fields only feed
update_data (network) and log messages, never the accessors under study,
so only the _attributes field is modelled. -/
structure VehicleState where
  _attributes : Option Attributes

/-- VehicleState.__init__: the stored attributes start as None. -/
def VehicleState.init : VehicleState := ⟨none⟩

/-! ### strptime models

Python strptime compiles the format to an anchored regex and then checks that
the whole input was consumed.  The numeric directives used here are, with the
exact regex fragments of the CPython TimeRE table,
  %Y : four digits exactly ([0-9][0-9][0-9][0-9])
  %m : (1[0-2]|0[1-9]|[1-9])
  %d : (3[01]|[12][0-9]|0[1-9]|[1-9]| [1-9])
  %H : (2[0-3]|[01][0-9]|[0-9])
  %M : ([0-5][0-9]|[0-9])
  %S : (6[01]|[0-5][0-9]|[0-9])
%Y is fixed-width, so it never backtracks.  For the variable-width
directives: in the formats of state.py each one is followed either by a fixed
non-digit literal, by %z (which starts with a sign or Z), or by the end of
the input, so shortening a two-character match always places a digit where a
non-digit is required, and a space-padded %d match starts with a space where
every other alternative needs a digit: no cross-directive backtracking can
succeed, and each directive can be matched by trying its alternatives in
regex order. -/

/-- Match %Y: exactly four decimal digits.  Returns the year value and the
rest. -/
def matchYear : List Char → Option (Nat × List Char)
  | c1 :: c2 :: c3 :: c4 :: rest =>
    if c1.isDigit ∧ c2.isDigit ∧ c3.isDigit ∧ c4.isDigit then
      some (digitsToNat [c1, c2, c3, c4], rest)
    else none
  | _ => none

/-- Match a two-digit-or-one-digit numeric directive: first the two-character
alternatives (both digits, value accepted by ok2), then the one-character ones
(a digit accepted by ok1). -/
def matchTwoOne (ok2 : Nat → Bool) (ok1 : Nat → Bool) : List Char → Option (Nat × List Char)
  | c1 :: c2 :: rest =>
    if c1.isDigit ∧ c2.isDigit ∧ ok2 (digitVal c1 * 10 + digitVal c2) then
      some (digitVal c1 * 10 + digitVal c2, rest)
    else if c1.isDigit ∧ ok1 (digitVal c1) then
      some (digitVal c1, c2 :: rest)
    else none
  | [c1] =>
    if c1.isDigit ∧ ok1 (digitVal c1) then some (digitVal c1, []) else none
  | [] => none

/-- Match %m: two-digit months 01..12, else one-digit months 1..9. -/
def matchMonth : List Char → Option (Nat × List Char) :=
  matchTwoOne (fun v => 1 ≤ v ∧ v ≤ 12) (fun v => 1 ≤ v)

/-- Match %d, trying the regex alternatives in order: two-digit days 01..31,
then one-digit days 1..9, then a space followed by a digit 1..9 (the
space-padded form of the last regex alternative). -/
def matchDay : List Char → Option (Nat × List Char)
  | c1 :: c2 :: rest =>
    if c1.isDigit ∧ c2.isDigit ∧ 1 ≤ digitVal c1 * 10 + digitVal c2 ∧
        digitVal c1 * 10 + digitVal c2 ≤ 31 then
      some (digitVal c1 * 10 + digitVal c2, rest)
    else if c1.isDigit ∧ 1 ≤ digitVal c1 then
      some (digitVal c1, c2 :: rest)
    else if c1 = ' ' ∧ c2.isDigit ∧ 1 ≤ digitVal c2 then
      some (digitVal c2, rest)
    else none
  | [c1] =>
    if c1.isDigit ∧ 1 ≤ digitVal c1 then some (digitVal c1, []) else none
  | [] => none

/-- Match %H: two-digit hours 00..23, else a single digit. -/
def matchHour : List Char → Option (Nat × List Char) :=
  matchTwoOne (fun v => v ≤ 23) (fun _ => true)

/-- Match %M: two-digit values 00..59, else a single digit. -/
def matchMinute : List Char → Option (Nat × List Char) :=
  matchTwoOne (fun v => v ≤ 59) (fun _ => true)

/-- Match %S: two-digit values 00..61 (the regex admits leap seconds 60 and
61; the datetime constructor rejects them afterwards), else a single digit. -/
def matchSec : List Char → Option (Nat × List Char) :=
  matchTwoOne (fun v => v ≤ 61) (fun _ => true)

/-- Match a literal character. -/
def expectChar (c : Char) : List Char → Option (List Char)
  | x :: rest => if x = c then some rest else none
  | [] => none

/-- Leap year as computed by the calendar arithmetic of datetime. -/
def isLeapYear (y : Nat) : Bool :=
  y % 4 = 0 ∧ (y % 100 ≠ 0 ∨ y % 400 = 0)

/-- Days in a month, used by the datetime constructor to validate the day. -/
def daysInMonth (y m : Nat) : Nat :=
  if m = 2 then (if isLeapYear y then 29 else 28)
  else if m = 4 ∨ m = 6 ∨ m = 9 ∨ m = 11 then 30
  else 31

/-- A date as produced by strptime (we only need year, month, day). -/
structure PyDate where
  year : Nat
  month : Nat
  day : Nat
deriving DecidableEq

/-- A timezone-aware datetime as produced by strptime with %z; the offset is
in seconds east of UTC. -/
structure PyDateTime where
  year : Nat
  month : Nat
  day : Nat
  hour : Nat
  minute : Nat
  second : Nat
  tzoffset : Int
deriving DecidableEq

/-- strptime(s, "%Y-%m"): a four-digit year then a dash then a month,
consuming the whole input; the datetime constructor then requires 1 <= year
(four digits give year <= 9999 already).  The day defaults to 1.  Returns
year and month. -/
def strptimeYM (s : String) : Option (Nat × Nat) :=
  match matchYear s.toList with
  | none => none
  | some (y, rest1) =>
    match expectChar '-' rest1 with
    | none => none
    | some rest2 =>
      match matchMonth rest2 with
      | none => none
      | some (m, rest3) =>
        if rest3 = [] ∧ 1 ≤ y then some (y, m) else none

/-- strptime(s, "%m.%Y"): a month then a dot then a four-digit year,
consuming the whole input, with 1 <= year as above.  Returns year and month. -/
def strptimeMY (s : String) : Option (Nat × Nat) :=
  match matchMonth s.toList with
  | none => none
  | some (m, rest1) =>
    match expectChar '.' rest1 with
    | none => none
    | some rest2 =>
      match matchYear rest2 with
      | none => none
      | some (y, rest3) =>
        if rest3 = [] ∧ 1 ≤ y then some (y, m) else none

/-- ConditionBasedServiceReport._parse_date of state.py: try "%Y-%m" then
"%m.%Y"; on the first success return the parsed month with the day replaced
by 1 (strptime already defaults the day to 1, and the code then calls
replace(day=1)); when both formats fail, log an error and return None. -/
def _parse_date (datestr : String) : Option PyDate :=
  match strptimeYM datestr with
  | some (y, m) => some ⟨y, m, 1⟩
  | none =>
    match strptimeMY datestr with
    | some (y, m) => some ⟨y, m, 1⟩
    | none => none

/-- Match %z, regex ([+-][0-9][0-9]:?[0-5][0-9](:?[0-5][0-9])?|Z): a sign
followed by HH (any two digits), an optional colon, MM with minutes 00..59,
and optionally a second optional colon plus SS with seconds 00..59; or the
literal Z.  Returns the offset in seconds and the rest.  Fractional seconds,
accepted by CPython, are not modelled (no claim exercises them). -/
def matchTz : List Char → Option (Int × List Char)
  | 'Z' :: rest => some (0, rest)
  | c :: rest =>
    if c = '+' ∨ c = '-' then
      match rest with
      | h1 :: h2 :: rest2 =>
        if h1.isDigit ∧ h2.isDigit then
          let hh := digitVal h1 * 10 + digitVal h2
          let rest3 := match rest2 with
            | ':' :: r => r
            | r => r
          match rest3 with
          | m1 :: m2 :: rest4 =>
            if m1.isDigit ∧ digitVal m1 ≤ 5 ∧ m2.isDigit then
              let mm := digitVal m1 * 10 + digitVal m2
              let rest5 := match rest4 with
                | ':' :: s1 :: s2 :: r =>
                  if s1.isDigit ∧ digitVal s1 ≤ 5 ∧ s2.isDigit then
                    some (digitVal s1 * 10 + digitVal s2, r)
                  else none
                | s1 :: s2 :: r =>
                  if s1.isDigit ∧ digitVal s1 ≤ 5 ∧ s2.isDigit then
                    some (digitVal s1 * 10 + digitVal s2, r)
                  else none
                | _ => none
              let (ss, rest6) := match rest5 with
                | some (ss, r) => (ss, r)
                | none => (0, rest4)
              let total : Int := (hh * 3600 + mm * 60 + ss : Nat)
              some (if c = '-' then -total else total, rest6)
            else none
          | _ => none
        else none
      | _ => none
    else none
  | [] => none

/-- strptime(s, "%Y-%m-%dT%H:%M:%S%z") followed by the datetime constructor:
all fields parsed in order, the whole input consumed, the day validated
against the month length, the year at least 1, the second at most 59 (the %S
regex admits 60 and 61 but datetime rejects them), and the timezone offset
strictly less than 24 hours in magnitude. -/
def strptimeDatetime (s : String) : Option PyDateTime :=
  match matchYear s.toList with
  | none => none
  | some (y, r1) =>
    match expectChar '-' r1 with
    | none => none
    | some r2 =>
      match matchMonth r2 with
      | none => none
      | some (mo, r3) =>
        match expectChar '-' r3 with
        | none => none
        | some r4 =>
          match matchDay r4 with
          | none => none
          | some (d, r5) =>
            match expectChar 'T' r5 with
            | none => none
            | some r6 =>
              match matchHour r6 with
              | none => none
              | some (h, r7) =>
                match expectChar ':' r7 with
                | none => none
                | some r8 =>
                  match matchMinute r8 with
                  | none => none
                  | some (mi, r9) =>
                    match expectChar ':' r9 with
                    | none => none
                    | some r10 =>
                      match matchSec r10 with
                      | none => none
                      | some (sec, r11) =>
                        match matchTz r11 with
                        | none => none
                        | some (off, r12) =>
                          if r12 = [] ∧ 1 ≤ y ∧ d ≤ daysInMonth y mo ∧ sec ≤ 59 ∧
                              off.natAbs < 86400 then
                            some ⟨y, mo, d, h, mi, sec, off⟩
                          else none

/-- VehicleState._parse_datetime of state.py: strptime with format
"%Y-%m-%dT%H:%M:%S%z"; an input that does not match raises ValueError. -/
def _parse_datetime (date_str : String) : Except PyError PyDateTime :=
  match strptimeDatetime date_str with
  | some dt => Except.ok dt
  | none => Except.error (PyError.valueError ("time data " ++ date_str ++ " does not match format"))

/-! ### Lid, Window, ConditionBasedServiceReport -/

/-- Lid of state.py: name plus the state parsed through the LidState enum
(the constructor raises ValueError on an invalid literal). -/
structure Lid where
  name : String
  state : LidState
deriving DecidableEq

/-- Lid.__init__: parse the raw state through LidState. -/
def Lid.ofData (name : String) (state : Json) : Except PyError Lid :=
  (LidState.ofJson state).map (fun st => ⟨name, st⟩)

/-- Lid.is_closed of state.py. -/
def Lid.is_closed (l : Lid) : Bool := l.state == LidState.CLOSED

/-- Window of state.py: an empty subclass of Lid, no added behavior. -/
abbrev Window := Lid

/-- Python iteration (for x in v): lists yield their elements, strings their
characters, dicts their keys; numbers, booleans and None raise TypeError. -/
def Json.pyIter : Json → Except PyError (List Json)
  | Json.arr xs => Except.ok xs
  | Json.str s => Except.ok (s.toList.map (fun c => Json.str (String.mk [c])))
  | Json.obj fs => Except.ok (fs.map (fun p => Json.str p.1))
  | _ => Except.error PyError.typeError

/-- ConditionBasedServiceReport of state.py.  Note the attribute holding the
status is named state; the class has no attribute named status.  The raw
service type and description are kept as JSON values. -/
structure ConditionBasedServiceReport where
  due_date : Option PyDate
  state : ConditionBasedServiceStatus
  service_type : Json
  due_distance : Option Int
  description : Json

/-- ConditionBasedServiceReport.__init__, in source order: index cbsDueDate
(KeyError when absent, TypeError when data is not a dict) and parse it with
_parse_date (strptime on a non-string raises TypeError); build the state enum
from cbsState (ValueError on an invalid literal); read cbsType; set
due_distance to int(cbsRemainingMileage) only when that key is present; read
cbsDescription. -/
def ConditionBasedServiceReport.ofData (data : Json) : Except PyError ConditionBasedServiceReport := do
  let dueJ ← data.index "cbsDueDate"
  let dueStr ← match dueJ with
    | Json.str s => Except.ok s
    | _ => Except.error PyError.typeError
  let due_date := _parse_date dueStr
  let stateJ ← data.index "cbsState"
  let state ← ConditionBasedServiceStatus.ofJson stateJ
  let service_type ← data.index "cbsType"
  let due_distance ← if data.containsKey "cbsRemainingMileage" then do
      let mJ ← data.index "cbsRemainingMileage"
      let m ← pyInt mJ
      pure (some m)
    else
      pure (none : Option Int)
  let description ← data.index "cbsDescription"
  pure ⟨due_date, state, service_type, due_distance, description⟩

/-! ### The guarded accessors of VehicleState -/

/-- Body of the attributes property: return the stored mapping unparsed. -/
def attributes_body (a : Attributes) : Except PyError (Option Attributes) :=
  Except.ok (some a)

/-- VehicleState.attributes: the raw attributes, guarded. -/
def VehicleState.attributes (s : VehicleState) : Except PyError (Option Attributes) :=
  backend_parameter s._attributes attributes_body

/-- Body of timestamp: _parse_datetime(self._attributes[updateTime]); the
value must be a string (strptime raises TypeError otherwise). -/
def timestamp_body (a : Attributes) : Except PyError (Option PyDateTime) := do
  let v ← dictGet a "updateTime"
  let str ← match v with
    | Json.str s => Except.ok s
    | _ => Except.error PyError.typeError
  let dt ← _parse_datetime str
  pure (some dt)

/-- VehicleState.timestamp, guarded. -/
def VehicleState.timestamp (s : VehicleState) : Except PyError (Option PyDateTime) :=
  backend_parameter s._attributes timestamp_body

/-- Body of is_vehicle_tracking_enabled:
self._attributes[position][status] == "OK". -/
def is_vehicle_tracking_enabled_body (a : Attributes) : Except PyError (Option Bool) := do
  let pos ← dictGet a "position"
  let st ← pos.index "status"
  pure (some (jsonEqStr st "OK"))

/-- VehicleState.is_vehicle_tracking_enabled, guarded. -/
def VehicleState.is_vehicle_tracking_enabled (s : VehicleState) : Except PyError (Option Bool) :=
  backend_parameter s._attributes is_vehicle_tracking_enabled_body

/-- Body of gps_position: fetch position, re-enter the guarded
is_vehicle_tracking_enabled property (the stored attributes are present here,
so its guard passes and a KeyError inside it yields None, which is falsy);
when tracking is enabled return (float(lat), float(lon)), otherwise evaluate
position[status] for the log message and return None. -/
def gps_position_body (a : Attributes) : Except PyError (Option (Rat × Rat)) := do
  let pos ← dictGet a "position"
  let tracking ← backend_parameter (some a) is_vehicle_tracking_enabled_body
  if truthy tracking then do
    let latJ ← pos.index "lat"
    let lat ← pyFloat latJ
    let lonJ ← pos.index "lon"
    let lon ← pyFloat lonJ
    pure (some (lat, lon))
  else do
    let _ ← pos.index "status"
    pure none

/-- VehicleState.gps_position, guarded. -/
def VehicleState.gps_position (s : VehicleState) : Except PyError (Option (Rat × Rat)) :=
  backend_parameter s._attributes gps_position_body

/-- Body of mileage: float(self._attributes[mileage]). -/
def mileage_body (a : Attributes) : Except PyError (Option Rat) := do
  let v ← dictGet a "mileage"
  let f ← pyFloat v
  pure (some f)

/-- VehicleState.mileage, guarded. -/
def VehicleState.mileage (s : VehicleState) : Except PyError (Option Rat) :=
  backend_parameter s._attributes mileage_body

/-- Body of remaining_range_fuel: float(self._attributes[remainingRangeFuel]). -/
def remaining_range_fuel_body (a : Attributes) : Except PyError (Option Rat) := do
  let v ← dictGet a "remainingRangeFuel"
  let f ← pyFloat v
  pure (some f)

/-- VehicleState.remaining_range_fuel, guarded. -/
def VehicleState.remaining_range_fuel (s : VehicleState) : Except PyError (Option Rat) :=
  backend_parameter s._attributes remaining_range_fuel_body

/-- Body of remaining_fuel: float(self._attributes[remainingFuel]). -/
def remaining_fuel_body (a : Attributes) : Except PyError (Option Rat) := do
  let v ← dictGet a "remainingFuel"
  let f ← pyFloat v
  pure (some f)

/-- VehicleState.remaining_fuel, guarded. -/
def VehicleState.remaining_fuel (s : VehicleState) : Except PyError (Option Rat) :=
  backend_parameter s._attributes remaining_fuel_body

/-- The loop of the lids body: for each name in the given list that is a key
of the attributes, append Lid(name, value); a bad literal raises at the Lid
construction for the first offending name, before later names are read. -/
def build_lids (a : Attributes) : List String → Except PyError (List Lid)
  | [] => Except.ok []
  | n :: rest =>
    match a.lookup n with
    | none => build_lids a rest
    | some v => do
      let lid ← Lid.ofData n v
      let tail ← build_lids a rest
      pure (lid :: tail)

/-- Body of lids: collect a Lid for every name of LIDS present in the
attributes (no KeyError possible: membership is tested first). -/
def lids_body (a : Attributes) : Except PyError (Option (List Lid)) := do
  let result ← build_lids a LIDS
  pure (some result)

/-- VehicleState.lids, guarded. -/
def VehicleState.lids (s : VehicleState) : Except PyError (Option (List Lid)) :=
  backend_parameter s._attributes lids_body

/-- Body of windows: same loop over WINDOWS building Window values. -/
def windows_body (a : Attributes) : Except PyError (Option (List Window)) := do
  let result ← build_lids a WINDOWS
  pure (some result)

/-- VehicleState.windows, guarded. -/
def VehicleState.windows (s : VehicleState) : Except PyError (Option (List Window)) :=
  backend_parameter s._attributes windows_body

/-- VehicleState.open_lids, not guarded: filter self.lids on not is_closed.
Accessing self.lids re-raises its guard ValueError when the stored attributes
are None.  Iterating over None would raise TypeError, but the lids body never
returns a bare None. -/
def VehicleState.open_lids (s : VehicleState) : Except PyError (List Lid) := do
  let lidsOpt ← s.lids
  match lidsOpt with
  | some ls => pure (ls.filter (fun l => !l.is_closed))
  | none => Except.error PyError.typeError

/-- VehicleState.all_lids_closed, not guarded: len(list(self.open_lids)) == 0. -/
def VehicleState.all_lids_closed (s : VehicleState) : Except PyError Bool :=
  s.open_lids.map (fun ls => ls.length == 0)

/-- VehicleState.open_windows, not guarded: filter self.windows. -/
def VehicleState.open_windows (s : VehicleState) : Except PyError (List Window) := do
  let wsOpt ← s.windows
  match wsOpt with
  | some ws => pure (ws.filter (fun w => !w.is_closed))
  | none => Except.error PyError.typeError

/-- VehicleState.all_windows_closed, not guarded. -/
def VehicleState.all_windows_closed (s : VehicleState) : Except PyError Bool :=
  s.open_windows.map (fun ws => ws.length == 0)

/-- Body of door_lock_state: LockState(self._attributes[doorLockState]). -/
def door_lock_state_body (a : Attributes) : Except PyError (Option LockState) := do
  let v ← dictGet a "doorLockState"
  let st ← LockState.ofJson v
  pure (some st)

/-- VehicleState.door_lock_state, guarded: a missing key becomes None, an
invalid literal raises ValueError through the guard. -/
def VehicleState.door_lock_state (s : VehicleState) : Except PyError (Option LockState) :=
  backend_parameter s._attributes door_lock_state_body

/-- Body of last_update_reason: the raw value of updateReason. -/
def last_update_reason_body (a : Attributes) : Except PyError (Option Json) := do
  let v ← dictGet a "updateReason"
  pure (some v)

/-- VehicleState.last_update_reason, guarded. -/
def VehicleState.last_update_reason (s : VehicleState) : Except PyError (Option Json) :=
  backend_parameter s._attributes last_update_reason_body

/-- Body of condition_based_services: one ConditionBasedServiceReport per
element of self._attributes[cbsData], built left to right. -/
def condition_based_services_body (a : Attributes) : Except PyError (Option (List ConditionBasedServiceReport)) := do
  let cbsJ ← dictGet a "cbsData"
  let items ← cbsJ.pyIter
  let reports ← items.mapM ConditionBasedServiceReport.ofData
  pure (some reports)

/-- VehicleState.condition_based_services, guarded. -/
def VehicleState.condition_based_services (s : VehicleState) : Except PyError (Option (List ConditionBasedServiceReport)) :=
  backend_parameter s._attributes condition_based_services_body

/-- The loop of are_all_cbs_ok.  The source reads cbs.status, but
ConditionBasedServiceReport defines no attribute named status (its
constructor sets state), so the first iteration over a non-empty report list
raises AttributeError; the empty list returns True. -/
def are_all_cbs_ok_loop : List ConditionBasedServiceReport → Except PyError Bool
  | [] => Except.ok true
  | _ :: _ => Except.error (PyError.attributeError "status")

/-- VehicleState.are_all_cbs_ok, not guarded: iterate over
self.condition_based_services (its guard ValueError propagates; iterating a
None result would raise TypeError, though the body never yields a bare None). -/
def VehicleState.are_all_cbs_ok (s : VehicleState) : Except PyError Bool := do
  let cbsOpt ← s.condition_based_services
  match cbsOpt with
  | some reports => are_all_cbs_ok_loop reports
  | none => Except.error PyError.typeError

/-- Body of parking_lights:
ParkingLightState(self.attributes[parkingLight]).  The body re-enters the
guarded attributes property; the stored attributes are present here, so that
property returns the mapping itself. -/
def parking_lights_body (a : Attributes) : Except PyError (Option ParkingLightState) := do
  let attrsOpt ← backend_parameter (some a) attributes_body
  let attrs ← match attrsOpt with
    | some m => Except.ok m
    | none => Except.error PyError.typeError
  let v ← dictGet attrs "parkingLight"
  let st ← ParkingLightState.ofJson v
  pure (some st)

/-- VehicleState.parking_lights, guarded: a missing key becomes None, an
invalid literal raises ValueError through the guard. -/
def VehicleState.parking_lights (s : VehicleState) : Except PyError (Option ParkingLightState) :=
  backend_parameter s._attributes parking_lights_body

/-- VehicleState.are_parking_lights_on, not guarded: None when parking_lights
is None, else the state compared against OFF. -/
def VehicleState.are_parking_lights_on (s : VehicleState) : Except PyError (Option Bool) := do
  let lights ← s.parking_lights
  match lights with
  | none => pure none
  | some st => pure (some (st != ParkingLightState.OFF))

/-! ### Claims -/

/-- Claim C1: for every guarded accessor of VehicleState (timestamp,
gps_position, is_vehicle_tracking_enabled, mileage, remaining_range_fuel,
remaining_fuel, lids, windows, door_lock_state, last_update_reason,
condition_based_services, parking_lights, attributes), when the stored
attributes are None (no refresh has succeeded) the access raises the no-data
ValueError. -/
theorem C1_guard_raises_no_data :
    VehicleState.attributes VehicleState.init = Except.error noData ∧
    VehicleState.timestamp VehicleState.init = Except.error noData ∧
    VehicleState.gps_position VehicleState.init = Except.error noData ∧
    VehicleState.is_vehicle_tracking_enabled VehicleState.init = Except.error noData ∧
    VehicleState.mileage VehicleState.init = Except.error noData ∧
    VehicleState.remaining_range_fuel VehicleState.init = Except.error noData ∧
    VehicleState.remaining_fuel VehicleState.init = Except.error noData ∧
    VehicleState.lids VehicleState.init = Except.error noData ∧
    VehicleState.windows VehicleState.init = Except.error noData ∧
    VehicleState.door_lock_state VehicleState.init = Except.error noData ∧
    VehicleState.last_update_reason VehicleState.init = Except.error noData ∧
    VehicleState.condition_based_services VehicleState.init = Except.error noData ∧
    VehicleState.parking_lights VehicleState.init = Except.error noData :=
  ⟨rfl, rfl, rfl, rfl, rfl, rfl, rfl, rfl, rfl, rfl, rfl, rfl, rfl⟩

/-- Claim C2: for every present attributes mapping, each guarded accessor
whose backend key is missing from the mapping returns None (the KeyError is
caught by the guard) and no exception escapes; the same holds for the nested
position.status key of the position accessors. -/
theorem C2_missing_key_returns_none (a : Attributes) :
    (a.lookup "updateTime" = none → VehicleState.timestamp ⟨some a⟩ = Except.ok none) ∧
    (a.lookup "position" = none → VehicleState.gps_position ⟨some a⟩ = Except.ok none) ∧
    (a.lookup "position" = none → VehicleState.is_vehicle_tracking_enabled ⟨some a⟩ = Except.ok none) ∧
    (a.lookup "mileage" = none → VehicleState.mileage ⟨some a⟩ = Except.ok none) ∧
    (a.lookup "remainingRangeFuel" = none → VehicleState.remaining_range_fuel ⟨some a⟩ = Except.ok none) ∧
    (a.lookup "remainingFuel" = none → VehicleState.remaining_fuel ⟨some a⟩ = Except.ok none) ∧
    (a.lookup "doorLockState" = none → VehicleState.door_lock_state ⟨some a⟩ = Except.ok none) ∧
    (a.lookup "updateReason" = none → VehicleState.last_update_reason ⟨some a⟩ = Except.ok none) ∧
    (a.lookup "cbsData" = none → VehicleState.condition_based_services ⟨some a⟩ = Except.ok none) ∧
    (a.lookup "parkingLight" = none → VehicleState.parking_lights ⟨some a⟩ = Except.ok none) ∧
    (∀ p, a.lookup "position" = some (Json.obj p) → p.lookup "status" = none →
      VehicleState.is_vehicle_tracking_enabled ⟨some a⟩ = Except.ok none ∧
      VehicleState.gps_position ⟨some a⟩ = Except.ok none) := by
  refine ⟨?_, ?_, ?_, ?_, ?_, ?_, ?_, ?_, ?_, ?_, ?_⟩
  · intro h
    simp [VehicleState.timestamp, backend_parameter, timestamp_body, dictGet, h,
      Bind.bind, Except.bind]
  · intro h
    simp [VehicleState.gps_position, backend_parameter, gps_position_body, dictGet, h,
      Bind.bind, Except.bind]
  · intro h
    simp [VehicleState.is_vehicle_tracking_enabled, backend_parameter,
      is_vehicle_tracking_enabled_body, dictGet, h, Bind.bind, Except.bind]
  · intro h
    simp [VehicleState.mileage, backend_parameter, mileage_body, dictGet, h,
      Bind.bind, Except.bind]
  · intro h
    simp [VehicleState.remaining_range_fuel, backend_parameter, remaining_range_fuel_body,
      dictGet, h, Bind.bind, Except.bind]
  · intro h
    simp [VehicleState.remaining_fuel, backend_parameter, remaining_fuel_body, dictGet, h,
      Bind.bind, Except.bind]
  · intro h
    simp [VehicleState.door_lock_state, backend_parameter, door_lock_state_body, dictGet, h,
      Bind.bind, Except.bind]
  · intro h
    simp [VehicleState.last_update_reason, backend_parameter, last_update_reason_body,
      dictGet, h, Bind.bind, Except.bind]
  · intro h
    simp [VehicleState.condition_based_services, backend_parameter,
      condition_based_services_body, dictGet, h, Bind.bind, Except.bind]
  · intro h
    simp [VehicleState.parking_lights, backend_parameter, parking_lights_body,
      attributes_body, dictGet, h, Bind.bind, Except.bind]
  · intro p hpos hst
    constructor
    · simp [VehicleState.is_vehicle_tracking_enabled, backend_parameter,
        is_vehicle_tracking_enabled_body, dictGet, Json.index, hpos, hst,
        Bind.bind, Except.bind]
    · simp [VehicleState.gps_position, backend_parameter, gps_position_body,
        is_vehicle_tracking_enabled_body, dictGet, Json.index, truthy, hpos, hst,
        Bind.bind, Except.bind, Pure.pure, Except.pure]

/-- Witness for C2: with an empty mapping every keyed accessor returns None,
and with a position object lacking status both position accessors return
None. -/
theorem C2_missing_key_returns_none_witness :
    VehicleState.timestamp ⟨some []⟩ = Except.ok none ∧
    VehicleState.gps_position ⟨some []⟩ = Except.ok none ∧
    VehicleState.is_vehicle_tracking_enabled ⟨some []⟩ = Except.ok none ∧
    VehicleState.mileage ⟨some []⟩ = Except.ok none ∧
    VehicleState.remaining_range_fuel ⟨some []⟩ = Except.ok none ∧
    VehicleState.remaining_fuel ⟨some []⟩ = Except.ok none ∧
    VehicleState.door_lock_state ⟨some []⟩ = Except.ok none ∧
    VehicleState.last_update_reason ⟨some []⟩ = Except.ok none ∧
    VehicleState.condition_based_services ⟨some []⟩ = Except.ok none ∧
    VehicleState.parking_lights ⟨some []⟩ = Except.ok none ∧
    VehicleState.is_vehicle_tracking_enabled ⟨some [("position", Json.obj [])]⟩ = Except.ok none ∧
    VehicleState.gps_position ⟨some [("position", Json.obj [])]⟩ = Except.ok none := by
  obtain ⟨h1, h2, h3, h4, h5, h6, h7, h8, h9, h10, -⟩ := C2_missing_key_returns_none []
  obtain ⟨-, -, -, -, -, -, -, -, -, -, h11⟩ :=
    C2_missing_key_returns_none [("position", Json.obj [])]
  obtain ⟨h11a, h11b⟩ := h11 [] rfl rfl
  exact ⟨h1 rfl, h2 rfl, h3 rfl, h4 rfl, h5 rfl, h6 rfl, h7 rfl, h8 rfl, h9 rfl,
    h10 rfl, h11a, h11b⟩

/-- Claim C3 (code bug): with an empty-but-present mapping, mileage does NOT
raise the no-data ValueError: the guard passes (the mapping is not None), the
body raises KeyError for the missing mileage key, and the guard converts it
into None.  Only the never-set case raises.  The repository test
test_missing_attribute sets the attributes to an empty dict and expects
ValueError, so the code contradicts its own test. -/
theorem C3_empty_mapping_mileage :
    VehicleState.mileage ⟨some []⟩ = Except.ok none ∧
    VehicleState.mileage VehicleState.init = Except.error noData :=
  ⟨rfl, rfl⟩

/-- Claim C4: the condition-based-service date parser tries format YYYY-MM
first, then MM.YYYY; both "2018-02" and "02.2018" yield 1 February 2018; the
year must be exactly four digits, so the two-digit-year variants "18-02" and
"02.18" match neither format and yield None; every successful parse has day
1; on input matching neither format it returns None (the Option result type
shows no exception escapes). -/
theorem C4_cbs_date_parsing :
    _parse_date "2018-02" = some ⟨2018, 2, 1⟩ ∧
    _parse_date "02.2018" = some ⟨2018, 2, 1⟩ ∧
    _parse_date "18-02" = none ∧
    _parse_date "02.18" = none ∧
    (∀ s y m, strptimeYM s = some (y, m) → _parse_date s = some ⟨y, m, 1⟩) ∧
    (∀ s y m, strptimeYM s = none → strptimeMY s = some (y, m) →
      _parse_date s = some ⟨y, m, 1⟩) ∧
    (∀ s d, _parse_date s = some d → d.day = 1) ∧
    (∀ s, strptimeYM s = none → strptimeMY s = none → _parse_date s = none) := by
  refine ⟨rfl, rfl, rfl, rfl, ?_, ?_, ?_, ?_⟩
  · intro s y m h
    simp [_parse_date, h]
  · intro s y m h1 h2
    simp [_parse_date, h1, h2]
  · intro s d h
    unfold _parse_date at h
    rcases hym : strptimeYM s with - | ⟨y, m⟩ <;> rw [hym] at h
    · rcases hmy : strptimeMY s with - | ⟨y2, m2⟩ <;> rw [hmy] at h
      · exact absurd h (by simp)
      · injection h with h2
        subst h2
        rfl
    · injection h with h2
      subst h2
      rfl
  · intro s h1 h2
    simp [_parse_date, h1, h2]

/-- Witness for C4: the normalized day of a successful parse is 1, and an
input matching neither format parses to None. -/
theorem C4_cbs_date_parsing_witness :
    PyDate.day ⟨2018, 2, 1⟩ = 1 ∧ _parse_date "nodate" = none := by
  constructor
  · exact C4_cbs_date_parsing.2.2.2.2.2.2.1 "2018-02" ⟨2018, 2, 1⟩ C4_cbs_date_parsing.1
  · exact C4_cbs_date_parsing.2.2.2.2.2.2.2 "nodate" rfl rfl

/-- Claim C5: with attributes present holding a position object with a string
status and parseable lat and lon, is_vehicle_tracking_enabled is true exactly
when the status equals "OK"; gps_position returns the (lat, lon) pair when
the status is "OK" and None otherwise. -/
theorem C5_tracking_and_gps (a : Attributes) (p : List (String × Json))
    (st : String) (latJ lonJ : Json) (lat lon : Rat)
    (hpos : a.lookup "position" = some (Json.obj p))
    (hst : p.lookup "status" = some (Json.str st))
    (hlat : p.lookup "lat" = some latJ)
    (hlon : p.lookup "lon" = some lonJ)
    (hlatF : pyFloat latJ = Except.ok lat)
    (hlonF : pyFloat lonJ = Except.ok lon) :
    VehicleState.is_vehicle_tracking_enabled ⟨some a⟩ = Except.ok (some (st == "OK")) ∧
    (st = "OK" → VehicleState.gps_position ⟨some a⟩ = Except.ok (some (lat, lon))) ∧
    (st ≠ "OK" → VehicleState.gps_position ⟨some a⟩ = Except.ok none) := by
  refine ⟨?_, ?_, ?_⟩
  · simp [VehicleState.is_vehicle_tracking_enabled, backend_parameter,
      is_vehicle_tracking_enabled_body, dictGet, Json.index, jsonEqStr, hpos, hst,
      Bind.bind, Except.bind, Pure.pure, Except.pure]
  · intro h
    subst h
    simp [VehicleState.gps_position, backend_parameter, gps_position_body,
      is_vehicle_tracking_enabled_body, dictGet, Json.index, jsonEqStr, truthy,
      hpos, hst, hlat, hlon, hlatF, hlonF, Bind.bind, Except.bind, Pure.pure, Except.pure]
  · intro h
    simp [VehicleState.gps_position, backend_parameter, gps_position_body,
      is_vehicle_tracking_enabled_body, dictGet, Json.index, jsonEqStr, truthy,
      hpos, hst, h, Bind.bind, Except.bind, Pure.pure, Except.pure]

/-- Witness for C5: the scenario position of the spec, with status OK. -/
theorem C5_tracking_and_gps_witness :
    VehicleState.is_vehicle_tracking_enabled
      ⟨some [("position", Json.obj [("lat", Json.num (-34.4)), ("lon", Json.num 25.26),
        ("status", Json.str "OK")])]⟩ = Except.ok (some true) ∧
    VehicleState.gps_position
      ⟨some [("position", Json.obj [("lat", Json.num (-34.4)), ("lon", Json.num 25.26),
        ("status", Json.str "OK")])]⟩ = Except.ok (some ((-34.4 : Rat), (25.26 : Rat))) := by
  have h := C5_tracking_and_gps
    [("position", Json.obj [("lat", Json.num (-34.4)), ("lon", Json.num 25.26),
      ("status", Json.str "OK")])]
    [("lat", Json.num (-34.4)), ("lon", Json.num 25.26), ("status", Json.str "OK")]
    "OK" (Json.num (-34.4)) (Json.num 25.26) (-34.4) 25.26 rfl rfl rfl rfl rfl rfl
  exact ⟨by simpa using h.1, h.2.1 rfl⟩

/-- Claim C6: a doorLockState (respectively parkingLight) string outside the
fixed literal set of LockState (respectively ParkingLightState) makes the
accessor raise a ValueError that propagates to the caller, instead of being
converted to None. -/
theorem C6_invalid_enum_raises (a : Attributes) (s : String) :
    (a.lookup "doorLockState" = some (Json.str s) →
      s ≠ "LOCKED" → s ≠ "SECURED" → s ≠ "SELECTIVELOCKED" → s ≠ "UNLOCKED" →
      VehicleState.door_lock_state ⟨some a⟩ =
        Except.error (PyError.valueError (s ++ " is not a valid LockState"))) ∧
    (a.lookup "parkingLight" = some (Json.str s) →
      s ≠ "LEFT" → s ≠ "RIGHT" → s ≠ "OFF" →
      VehicleState.parking_lights ⟨some a⟩ =
        Except.error (PyError.valueError (s ++ " is not a valid ParkingLightState"))) := by
  constructor
  · intro h h1 h2 h3 h4
    simp [VehicleState.door_lock_state, backend_parameter, door_lock_state_body,
      dictGet, LockState.ofJson, h, h1, h2, h3, h4, Bind.bind, Except.bind]
  · intro h h1 h2 h3
    simp [VehicleState.parking_lights, backend_parameter, parking_lights_body,
      attributes_body, dictGet, ParkingLightState.ofJson, h, h1, h2, h3,
      Bind.bind, Except.bind]

/-- Witness for C6: concrete invalid literals for both accessors. -/
theorem C6_invalid_enum_raises_witness :
    VehicleState.door_lock_state
      ⟨some [("doorLockState", Json.str "JAMMED"), ("parkingLight", Json.str "BLINKING")]⟩ =
      Except.error (PyError.valueError "JAMMED is not a valid LockState") ∧
    VehicleState.parking_lights
      ⟨some [("doorLockState", Json.str "JAMMED"), ("parkingLight", Json.str "BLINKING")]⟩ =
      Except.error (PyError.valueError "BLINKING is not a valid ParkingLightState") := by
  constructor
  · exact (C6_invalid_enum_raises
      [("doorLockState", Json.str "JAMMED"), ("parkingLight", Json.str "BLINKING")]
      "JAMMED").1 rfl (by decide) (by decide) (by decide) (by decide)
  · exact (C6_invalid_enum_raises
      [("doorLockState", Json.str "JAMMED"), ("parkingLight", Json.str "BLINKING")]
      "BLINKING").2 rfl (by decide) (by decide) (by decide)

/-- Claim C7: for every attributes mapping, open_lids is exactly the sublist
of lids whose state is not closed, and all_lids_closed is true exactly when
open_lids is empty; the same equivalence holds for windows. -/
theorem C7_closed_iff_no_open (a : Attributes) :
    (∀ ls, VehicleState.lids ⟨some a⟩ = Except.ok (some ls) →
      VehicleState.open_lids ⟨some a⟩ = Except.ok (ls.filter (fun l => !l.is_closed))) ∧
    (∀ ls, VehicleState.open_lids ⟨some a⟩ = Except.ok ls →
      (VehicleState.all_lids_closed ⟨some a⟩ = Except.ok true ↔ ls = [])) ∧
    (∀ ws, VehicleState.windows ⟨some a⟩ = Except.ok (some ws) →
      VehicleState.open_windows ⟨some a⟩ = Except.ok (ws.filter (fun w => !w.is_closed))) ∧
    (∀ ws, VehicleState.open_windows ⟨some a⟩ = Except.ok ws →
      (VehicleState.all_windows_closed ⟨some a⟩ = Except.ok true ↔ ws = [])) := by
  refine ⟨?_, ?_, ?_, ?_⟩
  · intro ls h
    simp [VehicleState.open_lids, h, Bind.bind, Except.bind, Pure.pure, Except.pure]
  · intro ls h
    simp [VehicleState.all_lids_closed, h, Except.map, List.length_eq_zero]
  · intro ws h
    simp [VehicleState.open_windows, h, Bind.bind, Except.bind, Pure.pure, Except.pure]
  · intro ws h
    simp [VehicleState.all_windows_closed, h, Except.map, List.length_eq_zero]

/-- Witness for C7: one open hood gives a singleton open_lids list; with no
lid or window keys at all both aggregates are true. -/
theorem C7_closed_iff_no_open_witness :
    VehicleState.open_lids ⟨some [("hood", Json.str "OPEN")]⟩ =
      Except.ok [⟨"hood", LidState.OPEN⟩] ∧
    VehicleState.all_lids_closed ⟨some []⟩ = Except.ok true ∧
    VehicleState.all_windows_closed ⟨some []⟩ = Except.ok true := by
  refine ⟨?_, ?_, ?_⟩
  · exact (C7_closed_iff_no_open [("hood", Json.str "OPEN")]).1
      [⟨"hood", LidState.OPEN⟩] rfl
  · exact ((C7_closed_iff_no_open []).2.1 [] rfl).mpr rfl
  · exact ((C7_closed_iff_no_open []).2.2.2 [] rfl).mpr rfl

/-- Claim C8 (code bug): with a cbsData list containing one report whose
state is OK, every built report has state OK and yet are_all_cbs_ok raises
AttributeError, because the loop reads cbs.status while the report class only
defines the attribute state; only the empty list returns True as claimed. -/
theorem C8_are_all_cbs_ok_attribute_bug :
    VehicleState.condition_based_services
      ⟨some [("cbsData", Json.arr [Json.obj [("cbsDueDate", Json.str "2018-02"),
        ("cbsState", Json.str "OK"), ("cbsType", Json.str "OIL_SERVICE"),
        ("cbsDescription", Json.str "due soon")]])]⟩ =
      Except.ok (some [⟨some ⟨2018, 2, 1⟩, ConditionBasedServiceStatus.OK,
        Json.str "OIL_SERVICE", none, Json.str "due soon"⟩]) ∧
    VehicleState.are_all_cbs_ok
      ⟨some [("cbsData", Json.arr [Json.obj [("cbsDueDate", Json.str "2018-02"),
        ("cbsState", Json.str "OK"), ("cbsType", Json.str "OIL_SERVICE"),
        ("cbsDescription", Json.str "due soon")]])]⟩ =
      Except.error (PyError.attributeError "status") ∧
    VehicleState.are_all_cbs_ok ⟨some [("cbsData", Json.arr [])]⟩ = Except.ok true :=
  ⟨rfl, rfl, rfl⟩

/-- Claim C9: are_parking_lights_on returns None when parking_lights is None
(in particular when the parkingLight key is missing), and otherwise is true
exactly when the state is not OFF. -/
theorem C9_parking_lights_on (a : Attributes) :
    (VehicleState.parking_lights ⟨some a⟩ = Except.ok none →
      VehicleState.are_parking_lights_on ⟨some a⟩ = Except.ok none) ∧
    (∀ st, VehicleState.parking_lights ⟨some a⟩ = Except.ok (some st) →
      VehicleState.are_parking_lights_on ⟨some a⟩ =
        Except.ok (some (st != ParkingLightState.OFF))) ∧
    (a.lookup "parkingLight" = none →
      VehicleState.are_parking_lights_on ⟨some a⟩ = Except.ok none) := by
  refine ⟨?_, ?_, ?_⟩
  · intro h
    simp [VehicleState.are_parking_lights_on, h, Bind.bind, Except.bind,
      Pure.pure, Except.pure]
  · intro st h
    simp [VehicleState.are_parking_lights_on, h, Bind.bind, Except.bind,
      Pure.pure, Except.pure]
  · intro h
    simp [VehicleState.are_parking_lights_on, VehicleState.parking_lights,
      backend_parameter, parking_lights_body, attributes_body, dictGet, h,
      Bind.bind, Except.bind, Pure.pure, Except.pure]

/-- Witness for C9: LEFT gives true, a missing key gives None. -/
theorem C9_parking_lights_on_witness :
    VehicleState.are_parking_lights_on ⟨some [("parkingLight", Json.str "LEFT")]⟩ =
      Except.ok (some true) ∧
    VehicleState.are_parking_lights_on ⟨some []⟩ = Except.ok none := by
  constructor
  · exact (C9_parking_lights_on [("parkingLight", Json.str "LEFT")]).2.1
      ParkingLightState.LEFT rfl
  · exact (C9_parking_lights_on []).2.2 rfl

/-- Claim C10: the derived properties open_lids, all_lids_closed,
open_windows, all_windows_closed, are_all_cbs_ok and are_parking_lights_on
carry no guard of their own, yet each raises the no-data ValueError when the
stored attributes are None, because each delegates to a guarded accessor. -/
theorem C10_derived_raise_no_data :
    VehicleState.open_lids VehicleState.init = Except.error noData ∧
    VehicleState.all_lids_closed VehicleState.init = Except.error noData ∧
    VehicleState.open_windows VehicleState.init = Except.error noData ∧
    VehicleState.all_windows_closed VehicleState.init = Except.error noData ∧
    VehicleState.are_all_cbs_ok VehicleState.init = Except.error noData ∧
    VehicleState.are_parking_lights_on VehicleState.init = Except.error noData :=
  ⟨rfl, rfl, rfl, rfl, rfl, rfl⟩
